import Mathlib

/-!
Shallow embedding of `bot.py` (a Telegram news-digest bot) and proofs of the
spec claims about it.  Pure string manipulation from the Python code is
re-implemented over `List Char` with Python semantics (code points); every
network interaction (HTTP fetch of the listing pages, the OpenAI completion
and image endpoints, the Telegram send calls) is an input to the model — an
oracle value describing what the outside world answered — since the code's
behaviour is a pure function of those answers.
-/

namespace MyTelegramBot

instance {ε α : Type} [DecidableEq ε] [DecidableEq α] : DecidableEq (Except ε α) := fun x y =>
  match x, y with
  | .error a, .error b =>
    if h : a = b then isTrue (by rw [h]) else isFalse (by intro hh; cases hh; exact h rfl)
  | .ok a, .ok b =>
    if h : a = b then isTrue (by rw [h]) else isFalse (by intro hh; cases hh; exact h rfl)
  | .error _, .ok _ => isFalse (by intro hh; cases hh)
  | .ok _, .error _ => isFalse (by intro hh; cases hh)

/-- Python whitespace for str.strip: space, tab, newline, carriage return,
vertical tab, form feed. -/
def isPySpace (c : Char) : Bool :=
  c == ' ' || c == '\t' || c == '\n' || c == '\r' || c == '\x0b' || c == '\x0c'

/-- Python str.strip(): drop leading and trailing whitespace code points. -/
def pyStrip (s : String) : String :=
  String.mk (((s.toList.dropWhile isPySpace).reverse.dropWhile isPySpace).reverse)

/-- Python len() on a str: the number of code points. -/
def pyLen (s : String) : Nat := s.toList.length

/-- Python s[:n]: the first n code points. -/
def pyTake (s : String) (n : Nat) : String := String.mk (s.toList.take n)

/-- Python s.startswith(p). -/
def pyStartsWith (s p : String) : Bool := p.toList.isPrefixOf s.toList

/-- Helper for pySplit: scan the text left to right, cutting at each
non-overlapping occurrence of the separator.  The fuel bounds the recursion;
pySplit passes more fuel than there are characters, so for a nonempty
separator the fuel-exhausted arm is never reached. -/
def splitSepAux (sep : List Char) : Nat → List Char → List Char → List (List Char)
  | 0, acc, rest => [acc.reverse ++ rest]
  | _ + 1, acc, [] => [acc.reverse]
  | fuel + 1, acc, c :: cs =>
    if sep.isPrefixOf (c :: cs) then
      acc.reverse :: splitSepAux sep fuel [] ((c :: cs).drop sep.length)
    else
      splitSepAux sep fuel (c :: acc) cs

/-- Python s.split(sep) for a nonempty separator. -/
def pySplit (s sep : String) : List String :=
  (splitSepAux sep.toList (s.toList.length + 1) [] s.toList).map String.mk

/-- Python sep.join(xs). -/
def pyJoin (sep : String) : List String → String
  | [] => ""
  | [x] => x
  | x :: y :: xs => x ++ sep ++ pyJoin sep (y :: xs)

/-- Python s.rsplit(chr(32), 1)[0]: everything before the last space, or s
itself when there is no space. -/
def rsplitLastSpaceHead (s : String) : String :=
  let r := s.toList.reverse
  if r.contains ' ' then String.mk (((r.dropWhile (fun c => c != ' ')).drop 1).reverse)
  else s

/-- Helper for chunksOf; fuel-bounded, called with fuel = length of the list. -/
def chunksOfAux {α : Type} (n : Nat) : Nat → List α → List (List α)
  | _, [] => []
  | 0, l => [l]
  | fuel + 1, a :: l => ((a :: l).take n) :: chunksOfAux n fuel ((a :: l).drop n)

/-- Consecutive chunks of n elements, Python xs[i:i+n] for i in
range(0, len(xs), n) with n ≥ 1. -/
def chunksOf {α : Type} (n : Nat) (l : List α) : List (List α) :=
  chunksOfAux n l.length l

/-- One scraped news item, as the dicts built by the fetch_*_news loops. -/
structure NewsItem where
  id : String
  title : String
  url : String
  full_text : String
  source : String
deriving DecidableEq, Repr

/-- What the fixed CSS selectors can see of one article block of a listing
page: the href of the first anchor carrying one (find a with href=True) and
the stripped text of the first h2 / h3 / h4 heading, each when present. -/
structure ArticleBlock where
  linkHref : Option String
  h2 : Option String
  h3 : Option String
  h4 : Option String
deriving DecidableEq, Repr

/-- The four configured sources of fetch_all_selected_news. -/
inductive Source where
  | destructoid
  | pcgamer
  | rockpapershotgun
  | nvidia
deriving DecidableEq, Repr

def sourceName : Source → String
  | .destructoid => "destructoid"
  | .pcgamer => "pcgamer"
  | .rockpapershotgun => "rockpapershotgun"
  | .nvidia => "nvidia"

/-- The base each fetcher prepends to a non-absolute href. -/
def baseOf : Source → String
  | .destructoid => "https://www.destructoid.com"
  | .pcgamer => "https://www.pcgamer.com"
  | .rockpapershotgun => "https://www.rockpapershotgun.com"
  | .nvidia => "https://blogs.nvidia.com"

/-- The heading selector of each fetcher: destructoid, rockpapershotgun and
nvidia take find(h2) or find(h3); fetch_pcgamer_news takes find(h3) or
find(h4). -/
def headingOf : Source → ArticleBlock → Option String
  | .pcgamer, a => a.h3 <|> a.h4
  | _, a => a.h2 <|> a.h3

/-- href resolution in every fetcher: keep the href when it starts with
"http", otherwise prepend the configured base. -/
def resolveHref (base href : String) : String :=
  if pyStartsWith href "http" then href else base ++ href

/-- The common body of each fetch_*_news loop over find_all(...)[:7]: skip a
block missing the anchor or the heading, resolve the href, fetch the full
article text (falling back to the title when that returns empty), and emit
the news dict.  fullTextOf stands for get_full_article_text, which swallows
all of its errors and returns a string, empty on failure. -/
def extractItems (base src : String) (hsel : ArticleBlock → Option String)
    (fullTextOf : String → String) (articles : List ArticleBlock) : List NewsItem :=
  (articles.take 7).filterMap (fun art =>
    match art.linkHref, hsel art with
    | some href, some title =>
      let href2 := resolveHref base href
      let ft := fullTextOf href2
      let ft2 := if ft = "" then title else ft
      some { id := href2, title := title, url := href2, full_text := ft2, source := src }
    | _, _ => none)

/-- The network environment of one fetch pass: for each source either the
article blocks parsed from its listing page or the HTTP/parsing error raised
there, and the result of get_full_article_text for each article URL. -/
structure FetchEnv where
  page : Source → Except String (List ArticleBlock)
  fullText : Source → String → String

/-- One fetch_*_news call: the try/except around the whole body returns the
accumulated (still empty) list when the HTTP request errors. -/
def runFetcher (env : FetchEnv) (s : Source) : List NewsItem :=
  match env.page s with
  | .error _ => []
  | .ok articles => extractItems (baseOf s) (sourceName s) (headingOf s) (env.fullText s) articles

/-- The fetcher list of fetch_all_selected_news, in source order. -/
def sourcesList : List Source :=
  [.destructoid, .pcgamer, .rockpapershotgun, .nvidia]

/-- fetch_all_selected_news: every configured source is fetched; the
per-source try/except (and each fetcher's own catch-all) maps a failing
source to an empty list. -/
def fetch_all_selected_news (env : FetchEnv) : List (Source × List NewsItem) :=
  sourcesList.map (fun s => (s, runFetcher env s))

/-- Dictionary lookup result[name] on the fetch result. -/
def itemsOf (res : List (Source × List NewsItem)) (s : Source) : List NewsItem :=
  ((res.find? (fun p => decide (p.fst = s))).map Prod.snd).getD []

/-- Outcome of one requests.post to the completions endpoint: either the
request itself raised, or a response arrived with a status code, a raw body
text, and the result of extracting choices[0].message.content from the
parsed json (error when that indexing raises). -/
inductive ApiOutcome where
  | raised (e : String)
  | response (status : Nat) (body : String) (parsed : Except String String)
deriving DecidableEq, Repr

/-- ask_gpt: total by construction — every arm returns a string, the catch-all
except turning any raised exception into an error message. -/
def ask_gpt (o : ApiOutcome) : String :=
  match o with
  | .raised e => "Ошибка общения с OpenAI: " ++ e
  | .response status body parsed =>
    if status ≠ 200 then
      "Ошибка OpenAI API [" ++ toString status ++ "]: " ++ pyTake body 500
    else
      match parsed with
      | .ok content => content
      | .error e => "Ошибка общения с OpenAI: " ++ e

/-- Outcome of one requests.post to the image endpoint, like ApiOutcome with
the extracted data[0].url. -/
inductive DalleOutcome where
  | raised (e : String)
  | response (status : Nat) (body : String) (url : Except String String)
deriving DecidableEq, Repr

/-- generate_dalle_image: the image URL, or the RuntimeError message (the
non-200 RuntimeError is re-wrapped by the function's own except clause). -/
def generate_dalle_image (o : DalleOutcome) : Except String String :=
  match o with
  | .raised e => .error ("Ошибка генерации изображения: " ++ e)
  | .response status body url =>
    if status ≠ 200 then
      .error ("Ошибка генерации изображения: Ошибка DALL-E: " ++ pyTake body 300)
    else
      match url with
      | .ok u => .ok u
      | .error e => .error ("Ошибка генерации изображения: " ++ e)

/-- get_image_prompt: the request messages built from the chosen news item
only shape the remote completion call, which the ApiOutcome oracle stands
for; what remains is the post-processing of ask_gpt's answer into the final
DALL-E prompt. -/
def get_image_prompt (o : ApiOutcome) : String :=
  let first_prompt := ask_gpt o
  if first_prompt = "" then "Prompt could not be generated."
  else
    pyStrip
      ("The character from image.png (a pixel art character with short brown hair, black square glasses, a white T-shirt with a black spiral symbol, red and orange checkered suspenders, blue jeans with a brown belt, and brown shoes) is present in the scene. "
        ++ pyStrip first_prompt
        ++ " The character is visibly interacting with the main elements of the scene or other characters; make their interaction clear and meaningful (for example, talking, working together, or sharing an activity).")

/-- short_content in send_news_periodically. -/
def shortContent (content : String) : String :=
  if pyLen content < 550 then content
  else rsplitLastSpaceHead (pyTake content 550) ++ "…"

/-- digest_input: titles plus shortened stripped bodies, with the
titles-only fallback when the result exceeds 2800 code points. -/
def digestInputOf (new_news : List NewsItem) : String :=
  let raw := new_news.foldl (fun acc news =>
    let acc1 := acc ++ news.title ++ "\n"
    let content := pyStrip news.full_text
    let acc2 := if content ≠ "" then acc1 ++ shortContent content else acc1
    acc2 ++ "\n\n") ""
  let di := pyStrip raw
  if pyLen di > 2800 then pyJoin "\n\n" (new_news.map (fun n => n.title)) else di

/-- news_blocks of split_digest_by_news: split the digest at blank lines,
strip each block, drop the empty ones. -/
def blocksOf (digest : String) : List String :=
  ((pySplit digest "\n\n").map pyStrip).filter (fun b => decide (b ≠ ""))

/-- split_digest_by_news: rejoin the blocks in chunks of max_news_per_msg. -/
def split_digest_by_news (digest : String) (max_news_per_msg : Nat) : List String :=
  (chunksOf max_news_per_msg (blocksOf digest)).map (fun g => pyJoin "\n\n" g)

def MAX_TEXT_LEN : Nat := 3900

def CHECK_INTERVAL : Nat := 60 * 240

/-- parts in the send loop: msg[i:i+MAX_TEXT_LEN] slices when the message is
longer than MAX_TEXT_LEN, otherwise the message itself. -/
def sliceParts (msg : String) : List String :=
  if pyLen msg > MAX_TEXT_LEN then (chunksOf MAX_TEXT_LEN msg.toList).map String.mk
  else [msg]

/-- One call to the Telegram send API. -/
inductive SendKind where
  | photo (url caption : String)
  | text (content : String)
deriving DecidableEq, Repr

/-- One attempted send: ok = false means the call raised, which the code
logs and moves past. -/
structure SendAttempt where
  chat : Int
  kind : SendKind
  ok : Bool
deriving DecidableEq, Repr

/-- The part sends of one digest chunk: the inner try wraps the whole parts
loop, so the first failing part aborts the remaining parts of that chunk
(and only of that chunk). -/
def attemptSeq (okAt : Nat → Bool) : Nat → List String → List (String × Bool)
  | _, [] => []
  | i, p :: rest =>
    if okAt i then (p, true) :: attemptSeq okAt (i + 1) rest
    else [(p, false)]

/-- Everything the outside world decides during one iteration of
send_news_periodically. -/
structure CycleEnv where
  fetch : FetchEnv
  digestOutcome : ApiOutcome
  imgPromptOutcome : ApiOutcome
  dalleOutcome : DalleOutcome
  photoSendOk : Int → Bool
  textSendOk : Int → Nat → Nat → Bool

/-- All send attempts for one chat id: the photo (or the image-error text)
in its own try, then every digest chunk, each chunk's parts in a try of its
own; a failure is logged and the loop moves on. -/
def chatSends (env : CycleEnv) (img_url : Option String) (split_msgs : List String)
    (c : Int) : List SendAttempt :=
  (match img_url with
    | some u =>
      ({ chat := c,
         kind := SendKind.photo u "🖼️ Сгенерировано ИИ (DALL-E 3), персонаж из image.png",
         ok := env.photoSendOk c } : SendAttempt)
    | none =>
      ({ chat := c, kind := SendKind.text "Ошибка генерации изображения.",
         ok := env.photoSendOk c } : SendAttempt)) ::
    (split_msgs.enum.flatMap (fun p =>
      (attemptSeq (env.textSendOk c p.fst) 0 (sliceParts p.snd)).map
        (fun q => { chat := c, kind := SendKind.text q.fst, ok := q.snd })))

/-- The global mutable state of bot.py: the subscriber set maintained by the
command handlers and the sent-links set. -/
structure BotState where
  chat_ids : Finset Int
  last_news_ids : Finset String
deriving DecidableEq

/-- Observable record of one loop iteration: how many completion and image
calls were issued, the prompt input and digest text produced, and the send
attempts in order. -/
structure CycleTrace where
  askGptCalls : Nat
  dalleCalls : Nat
  digestInput : String
  digest : String
  imgPrompt : String
  sends : List SendAttempt
deriving DecidableEq, Repr

/-- all_news flattened in dict-value order (the loop over
all_news.values()). -/
def fetchedItems (env : CycleEnv) : List NewsItem :=
  ((fetch_all_selected_news env.fetch).map Prod.snd).flatten

/-- new_news of one cycle: fetched items whose id is not yet in
last_news_ids. -/
def newNews (last : Finset String) (env : CycleEnv) : List NewsItem :=
  (fetchedItems env).filter (fun n => decide (n.id ∉ last))

/-- digest after the empty-answer fallback. -/
def digestOf (env : CycleEnv) : String :=
  let d := ask_gpt env.digestOutcome
  if d = "" then "Не удалось получить дайджест от ChatGPT." else d

/-- img_url: generate_dalle_image's answer, with the call-site except
turning an error into None. -/
def imgUrlOf (env : CycleEnv) : Option String :=
  match generate_dalle_image env.dalleOutcome with
  | .ok u => some u
  | .error _ => none

/-- The iteration order over the subscriber set (Python set order is
arbitrary; the model fixes the ascending one). -/
def chatList (st : BotState) : List Int :=
  st.chat_ids.sort (fun a b => a ≤ b)

/-- The whole publish step: every subscribed chat (chat_ids.copy()) in
iteration order. -/
def cycleSends (st : BotState) (env : CycleEnv) : List SendAttempt :=
  (chatList st).flatMap
    (chatSends env (imgUrlOf env) (split_digest_by_news (digestOf env) 4))

/-- One iteration of send_news_periodically's while-True loop.  Sleeping and
logging are not modelled.  When nothing is new or nobody is subscribed the
iteration only sleeps; otherwise the digest completion call, the image-prompt
completion call and the image call happen (2 ask_gpt calls, 1 DALL-E call),
the sends run, and only then last_news_ids absorbs the new ids — whatever
the send outcomes were.  random.choice only selects which news item's text
goes into the image-prompt request, which the imgPromptOutcome oracle stands
for. -/
def runCycle (st : BotState) (env : CycleEnv) : BotState × CycleTrace :=
  if newNews st.last_news_ids env = [] ∨ st.chat_ids = ∅ then
    (st, ⟨0, 0, "", "", "", []⟩)
  else
    ({ chat_ids := st.chat_ids,
       last_news_ids :=
         st.last_news_ids ∪ ((newNews st.last_news_ids env).map (fun n => n.id)).toFinset },
     ⟨2, 1, digestInputOf (newNews st.last_news_ids env), digestOf env,
      get_image_prompt env.imgPromptOutcome, cycleSends st env⟩)

/-- Several consecutive loop iterations. -/
def runCycles (st : BotState) : List CycleEnv → BotState
  | [] => st
  | e :: es => runCycles (runCycle st e).1 es

/-- The /start handler: add the chat and reply. -/
def start (chat_ids : Finset Int) (chat_id : Int) : Finset Int × String :=
  (insert chat_id chat_ids,
   "Доброго времени суток. Теперь я буду публиковать новости раз в 4 часа.")

/-- The /stop handler: remove a subscribed chat, otherwise leave the set
alone and say so. -/
def stop (chat_ids : Finset Int) (chat_id : Int) : Finset Int × String :=
  if chat_id ∈ chat_ids then
    (chat_ids.erase chat_id, "❌ Бот больше не будет публиковать новости в этом чате.")
  else
    (chat_ids, "Вы не подписаны на новости.")

/-- The process environment as os.getenv sees it: the three variables bot.py
reads at lines 23-25.  There is no channel/chat-id variable anywhere in
bot.py; subscribers come only from /start. -/
structure EnvVars where
  TELEGRAM_BOT_TOKEN : Option String
  OPENAI_API_KEY : Option String
  OPENAI_ORG : Option String
deriving DecidableEq, Repr

/-- The module-level constants those reads populate. -/
structure StartupConfig where
  BOT_TOKEN : Option String
  OPENAI_API_KEY : Option String
  OPENAI_ORG : Option String
deriving DecidableEq, Repr

/-- Lines 23-25: the three os.getenv reads, performed once at import time,
with no validation of any of them. -/
def readEnv (e : EnvVars) : StartupConfig :=
  ⟨e.TELEGRAM_BOT_TOKEN, e.OPENAI_API_KEY, e.OPENAI_ORG⟩

/-- Whether startup aborts: main() passes BOT_TOKEN to
ApplicationBuilder().token(...), and the telegram library raises when the
token is missing — the only startup abort.  Nothing in bot.py checks
OPENAI_API_KEY or OPENAI_ORG at startup; when they are absent, ask_gpt's
requests simply come back non-200 and turn into error strings. -/
def mainAborts (cfg : StartupConfig) : Bool := cfg.BOT_TOKEN.isNone

/-- The claim's reading of "any required one is absent" over the variables
that exist in bot.py. -/
def requiredEnvMissing (e : EnvVars) : Bool :=
  e.TELEGRAM_BOT_TOKEN.isNone || e.OPENAI_API_KEY.isNone || e.OPENAI_ORG.isNone

/-- The claim's selector reading for C5: pairs from the first seven blocks
having an anchor href and an h2-or-h3 heading, hrefs resolved against the
base. -/
def claimPairsH2H3 (base : String) (articles : List ArticleBlock) : List (String × String) :=
  (articles.take 7).filterMap (fun art =>
    match art.linkHref, (art.h2 <|> art.h3) with
    | some href, some t => some (t, resolveHref base href)
    | _, _ => none)

/-- The same with the h3-or-h4 selector that fetch_pcgamer_news actually
uses. -/
def claimPairsH3H4 (base : String) (articles : List ArticleBlock) : List (String × String) :=
  (articles.take 7).filterMap (fun art =>
    match art.linkHref, (art.h3 <|> art.h4) with
    | some href, some t => some (t, resolveHref base href)
    | _, _ => none)

/-- The (title, url) projection of a fetched item list. -/
def pairsOf (items : List NewsItem) : List (String × String) :=
  items.map (fun n => (n.title, n.url))

/-- A completion call that failed in the sense of C9: requests.post raised,
or the response status was not 200. -/
def completionFailed (o : ApiOutcome) : Prop :=
  (∃ e, o = ApiOutcome.raised e) ∨
  (∃ status body parsed, o = ApiOutcome.response status body parsed ∧ status ≠ 200)

/-- Concrete sample article block: relative href, title in h2. -/
def blockA : ArticleBlock := ⟨some "/a", some "A", none, none⟩

/-- The item extractItems builds from blockA on the destructoid fetcher with
a "body" full text. -/
def itemA : NewsItem :=
  ⟨"https://www.destructoid.com/a", "A", "https://www.destructoid.com/a", "body", "destructoid"⟩

/-- Sample cycle environment: destructoid serves one article, the other
sources are down, every remote generation call fails, every send fails. -/
def envOneItem : CycleEnv :=
  { fetch :=
      { page := fun s =>
          match s with
          | .destructoid => Except.ok [blockA]
          | _ => Except.error "down",
        fullText := fun _ _ => "body" },
    digestOutcome := ApiOutcome.raised "boom",
    imgPromptOutcome := ApiOutcome.raised "boom2",
    dalleOutcome := DalleOutcome.raised "boom3",
    photoSendOk := fun _ => false,
    textSendOk := fun _ _ _ => false }

/-- Sample cycle environment where every listing fetch fails, so nothing is
discovered. -/
def envEmpty : CycleEnv :=
  { fetch := { page := fun _ => Except.error "down", fullText := fun _ _ => "" },
    digestOutcome := ApiOutcome.raised "x",
    imgPromptOutcome := ApiOutcome.raised "y",
    dalleOutcome := DalleOutcome.raised "z",
    photoSendOk := fun _ => true,
    textSendOk := fun _ _ _ => true }

/-- Sample state: one subscriber, itemA's link already sent. -/
def st1 : BotState := ⟨{1}, {"https://www.destructoid.com/a"}⟩

/-- Sample state: one subscriber, nothing sent yet. -/
def st0 : BotState := ⟨{1}, ∅⟩

/-- Sample pcgamer article block whose only heading is an h2. -/
def pcgBlockH2 : ArticleBlock := ⟨some "/x", some "T", none, none⟩

/-- A prefix of a list is a prefix of that list extended on the right. -/
theorem isPrefixOf_append_left {p l₁ : List Char} (l₂ : List Char)
    (h : p.isPrefixOf l₁ = true) : p.isPrefixOf (l₁ ++ l₂) = true := by
  induction p generalizing l₁ with
  | nil => simp [List.isPrefixOf]
  | cons a as ih =>
    cases l₁ with
    | nil => simp [List.isPrefixOf] at h
    | cons b bs =>
      simp only [List.cons_append, List.isPrefixOf, Bool.and_eq_true] at h ⊢
      exact ⟨h.1, ih h.2⟩

/-- startswith survives appending on the right. -/
theorem pyStartsWith_append (a b p : String) (h : pyStartsWith a p = true) :
    pyStartsWith (a ++ b) p = true := by
  unfold pyStartsWith at h ⊢
  have hab : (a ++ b).toList = a.toList ++ b.toList := by
    simp [String.toList]
  rw [hab]
  exact isPrefixOf_append_left _ h

/-- A string starting with a nonempty prefix is nonempty. -/
theorem ne_empty_of_pyStartsWith {s p : String} (hp : p.toList ≠ [])
    (h : pyStartsWith s p = true) : s ≠ "" := by
  intro hs
  subst hs
  unfold pyStartsWith at h
  cases hpl : p.toList with
  | nil => exact hp hpl
  | cons c cs =>
    rw [hpl] at h
    simp [List.isPrefixOf, String.toList] at h

/-- Resolved hrefs are absolute whenever the base is. -/
theorem pyStartsWith_resolveHref (base href : String)
    (hbase : pyStartsWith base "http" = true) :
    pyStartsWith (resolveHref base href) "http" = true := by
  unfold resolveHref
  by_cases h : pyStartsWith href "http" = true
  · simp [h]
  · simp only [Bool.not_eq_true] at h
    simp [h, pyStartsWith_append base href "http" hbase]

/-- Every chunk the fuel-bounded splitter produces has at most n elements,
provided the fuel covers the list. -/
theorem length_le_of_mem_chunksOfAux {α : Type} {n : Nat} (hn : 1 ≤ n) :
    ∀ (fuel : Nat) (l c : List α), l.length ≤ fuel →
      c ∈ chunksOfAux n fuel l → c.length ≤ n := by
  intro fuel
  induction fuel with
  | zero =>
    intro l c hl hc
    have hnil : l = [] := List.length_eq_zero.mp (Nat.le_zero.mp hl)
    subst hnil
    simp [chunksOfAux] at hc
  | succ fuel ih =>
    intro l c hl hc
    cases l with
    | nil => simp [chunksOfAux] at hc
    | cons a t =>
      simp only [chunksOfAux, List.mem_cons] at hc
      rcases hc with hc | hc
      · subst hc
        simp only [List.length_take]
        exact Nat.min_le_left n _
      · refine ih _ _ ?_ hc
        simp only [List.length_drop, List.length_cons] at *
        omega

/-- Chunk membership bound, at the level of chunksOf. -/
theorem length_le_of_mem_chunksOf {α : Type} {n : Nat} (hn : 1 ≤ n)
    {l c : List α} (hc : c ∈ chunksOf n l) : c.length ≤ n :=
  length_le_of_mem_chunksOfAux hn l.length l c (Nat.le_refl _) hc

/-- Sanity of the chunk model: the chunks concatenate back to the list. -/
theorem flatten_chunksOfAux {α : Type} (n : Nat) :
    ∀ (fuel : Nat) (l : List α), (chunksOfAux n fuel l).flatten = l := by
  intro fuel
  induction fuel with
  | zero => intro l; cases l <;> simp [chunksOfAux]
  | succ fuel ih =>
    intro l
    cases l with
    | nil => simp [chunksOfAux]
    | cons a t => simp [chunksOfAux, ih]

/-- Dictionary lookup over the fetch result is exactly that source's
fetcher output. -/
theorem itemsOf_fetch_all (env : FetchEnv) (s : Source) :
    itemsOf (fetch_all_selected_news env) s = runFetcher env s := by
  cases s <;> rfl

/-- The sent-links set never shrinks across one cycle. -/
theorem last_subset_runCycle (st : BotState) (env : CycleEnv) :
    st.last_news_ids ⊆ (runCycle st env).1.last_news_ids := by
  unfold runCycle
  by_cases h : newNews st.last_news_ids env = [] ∨ st.chat_ids = ∅
  · rw [if_pos h]
  · rw [if_neg h]
    exact Finset.subset_union_left

/-- The subscriber set is untouched by the news loop. -/
theorem chat_ids_runCycle (st : BotState) (env : CycleEnv) :
    (runCycle st env).1.chat_ids = st.chat_ids := by
  unfold runCycle
  by_cases h : newNews st.last_news_ids env = [] ∨ st.chat_ids = ∅
  · rw [if_pos h]
  · rw [if_neg h]

/-- Each chat's send list opens with an attempt addressed to that chat. -/
theorem chatSends_head_chat (env : CycleEnv) (iu : Option String)
    (msgs : List String) (c : Int) :
    ∃ a ∈ chatSends env iu msgs c, a.chat = c := by
  cases iu <;> exact ⟨_, List.mem_cons_self _ _, rfl⟩

/-- C1: an item whose id is already in last_news_ids at the start of a cycle
is excluded from new_news — in this cycle and, since last_news_ids only ever
absorbs new ids and never drops any, in every later cycle of the process
lifetime. -/
theorem C1_sent_links_dedup (st : BotState) (env : CycleEnv) :
    (∀ n ∈ fetchedItems env, n.id ∈ st.last_news_ids →
       n ∉ newNews st.last_news_ids env) ∧
    st.last_news_ids ⊆ (runCycle st env).1.last_news_ids ∧
    (∀ envs : List CycleEnv, st.last_news_ids ⊆ (runCycles st envs).last_news_ids) ∧
    (∀ (envs : List CycleEnv) (env2 : CycleEnv), ∀ n ∈ fetchedItems env2,
       n.id ∈ st.last_news_ids →
       n ∉ newNews (runCycles st envs).last_news_ids env2) := by
  have hmono : ∀ (envs : List CycleEnv) (s : BotState),
      s.last_news_ids ⊆ (runCycles s envs).last_news_ids := by
    intro envs
    induction envs with
    | nil => intro s; exact Finset.Subset.refl _
    | cons e es ih =>
      intro s
      exact (last_subset_runCycle s e).trans (ih (runCycle s e).1)
  have hexcl : ∀ (last : Finset String) (env2 : CycleEnv), ∀ n ∈ fetchedItems env2,
      n.id ∈ last → n ∉ newNews last env2 := by
    intro last env2 n _ hid hmem
    unfold newNews at hmem
    rw [List.mem_filter] at hmem
    exact absurd hid (of_decide_eq_true hmem.2)
  exact ⟨hexcl st.last_news_ids env, last_subset_runCycle st env,
    fun envs => hmono envs st,
    fun envs env2 n hn hid =>
      hexcl _ env2 n hn (hmono envs st hid)⟩

/-- C1 witness: with itemA's link already sent, itemA is fetched but kept
out of new_news, and the sent set only grows. -/
theorem C1_witness :
    itemA ∈ fetchedItems envOneItem ∧
    itemA.id ∈ st1.last_news_ids ∧
    itemA ∉ newNews st1.last_news_ids envOneItem ∧
    st1.last_news_ids ⊆ (runCycle st1 envOneItem).1.last_news_ids :=
  ⟨by decide, by decide,
   (C1_sent_links_dedup st1 envOneItem).1 itemA (by decide) (by decide),
   (C1_sent_links_dedup st1 envOneItem).2.1⟩

/-- C2: a cycle that discovers nothing new makes no completion call, no
image call and no send — the state is unchanged and the trace is empty. -/
theorem C2_empty_cycle_skips (st : BotState) (env : CycleEnv)
    (h : newNews st.last_news_ids env = []) :
    runCycle st env = (st, ⟨0, 0, "", "", "", []⟩) := by
  unfold runCycle
  rw [if_pos (Or.inl h)]

/-- C2 witness: every listing fetch failing, nothing is discovered and the
iteration does nothing. -/
theorem C2_witness :
    newNews st0.last_news_ids envEmpty = [] ∧
    runCycle st0 envEmpty = (st0, ⟨0, 0, "", "", "", []⟩) :=
  ⟨by decide, C2_empty_cycle_skips st0 envEmpty (by decide)⟩

/-- C3: a failing source contributes an empty list to the fetch result while
every other source's entry is exactly its own fetcher's output. -/
theorem C3_failed_source_isolated (env : FetchEnv) (s : Source) (e : String)
    (h : env.page s = Except.error e) :
    itemsOf (fetch_all_selected_news env) s = [] ∧
    ∀ s2, s2 ≠ s → itemsOf (fetch_all_selected_news env) s2 = runFetcher env s2 := by
  refine ⟨?_, fun s2 _ => itemsOf_fetch_all env s2⟩
  rw [itemsOf_fetch_all]
  unfold runFetcher
  rw [h]

/-- C3 witness: with pcgamer down in envOneItem, its entry is empty and
destructoid's entry is its fetched items. -/
theorem C3_witness :
    envOneItem.fetch.page Source.pcgamer = Except.error "down" ∧
    itemsOf (fetch_all_selected_news envOneItem.fetch) Source.pcgamer = [] ∧
    itemsOf (fetch_all_selected_news envOneItem.fetch) Source.destructoid =
      runFetcher envOneItem.fetch Source.destructoid :=
  ⟨by decide,
   (C3_failed_source_isolated envOneItem.fetch Source.pcgamer "down" (by decide)).1,
   (C3_failed_source_isolated envOneItem.fetch Source.pcgamer "down" (by decide)).2
     Source.destructoid (by decide)⟩

/-- C4 counterexample: with the bot token present but OPENAI_API_KEY unset,
a required variable is absent by the claim's reading, yet startup does not
abort — bot.py never validates the OpenAI variables. -/
theorem C4_counterexample :
    requiredEnvMissing ⟨some "123:abc", none, some "org"⟩ = true ∧
    mainAborts (readEnv ⟨some "123:abc", none, some "org"⟩) = false := by
  constructor <;> rfl

/-- C4 amended: the three environment variables are read once at startup, and
the process aborts at startup exactly when the bot token is absent (the
telegram library's token validation); a missing OPENAI_API_KEY or OPENAI_ORG
does not abort and instead surfaces later as ask_gpt error strings. -/
theorem C4_amended_abort_iff_token_missing (e : EnvVars) :
    (mainAborts (readEnv e) = true ↔ e.TELEGRAM_BOT_TOKEN = none) ∧
    (mainAborts (readEnv e) = false ↔ ∃ t, e.TELEGRAM_BOT_TOKEN = some t) := by
  cases h : e.TELEGRAM_BOT_TOKEN <;>
    simp [mainAborts, readEnv, h]

/-- Projection of extractItems to its (title, url) pairs: the full-text
fetching drops out, leaving exactly the selector filter. -/
theorem pairsOf_extractItems (base src : String) (hsel : ArticleBlock → Option String)
    (ft : String → String) (articles : List ArticleBlock) :
    pairsOf (extractItems base src hsel ft articles) =
      (articles.take 7).filterMap (fun art =>
        match art.linkHref, hsel art with
        | some href, some t => some (t, resolveHref base href)
        | _, _ => none) := by
  unfold pairsOf extractItems
  generalize articles.take 7 = l
  induction l with
  | nil => rfl
  | cons a t ih =>
    simp only [List.filterMap_cons]
    cases ha : a.linkHref with
    | none => simpa using ih
    | some href =>
      cases hh : hsel a with
      | none => simpa using ih
      | some title => simpa using ih

/-- Every item a fetcher emits carries an absolute URL. -/
theorem extractItems_url_absolute {base src : String}
    {hsel : ArticleBlock → Option String} {ft : String → String}
    {articles : List ArticleBlock} (hbase : pyStartsWith base "http" = true) :
    ∀ n ∈ extractItems base src hsel ft articles, pyStartsWith n.url "http" = true := by
  intro n hn
  unfold extractItems at hn
  rw [List.mem_filterMap] at hn
  obtain ⟨art, _, hart⟩ := hn
  cases ha : art.linkHref with
  | none => rw [ha] at hart; cases hart
  | some href =>
    cases hh : hsel art with
    | none => rw [ha, hh] at hart; cases hart
    | some title =>
      rw [ha, hh] at hart
      simp only [Option.some.injEq] at hart
      subst hart
      exact pyStartsWith_resolveHref base href hbase

/-- The bases of all four sources are absolute. -/
theorem baseOf_absolute (s : Source) : pyStartsWith (baseOf s) "http" = true := by
  cases s <;> decide

/-- C5 counterexample: a pcgamer block whose only heading is an h2 yields no
pair from fetch_pcgamer_news, so pcgamer extraction is not the h2-or-h3
selection the claim states for every article block. -/
theorem C5_counterexample :
    pairsOf (extractItems (baseOf Source.pcgamer) "pcgamer" (headingOf Source.pcgamer)
        (fun _ => "") [pcgBlockH2]) ≠
      claimPairsH2H3 (baseOf Source.pcgamer) [pcgBlockH2] := by
  decide

/-- C5 amended: extraction returns exactly the (title, URL) pairs selected by
each fetcher's fixed selectors — an anchor href plus an h2-or-h3 heading for
destructoid, rockpapershotgun and nvidia, but an h3-or-h4 heading for
pcgamer — skipping blocks missing either, and every returned URL is
absolute, relative hrefs being resolved against the source's base. -/
theorem C5_amended_extraction_pairs (ft : String → String) (articles : List ArticleBlock) :
    pairsOf (extractItems (baseOf .destructoid) "destructoid" (headingOf .destructoid) ft articles)
      = claimPairsH2H3 (baseOf .destructoid) articles ∧
    pairsOf (extractItems (baseOf .rockpapershotgun) "rockpapershotgun"
        (headingOf .rockpapershotgun) ft articles)
      = claimPairsH2H3 (baseOf .rockpapershotgun) articles ∧
    pairsOf (extractItems (baseOf .nvidia) "nvidia" (headingOf .nvidia) ft articles)
      = claimPairsH2H3 (baseOf .nvidia) articles ∧
    pairsOf (extractItems (baseOf .pcgamer) "pcgamer" (headingOf .pcgamer) ft articles)
      = claimPairsH3H4 (baseOf .pcgamer) articles ∧
    (∀ s : Source, ∀ n ∈ extractItems (baseOf s) (sourceName s) (headingOf s) ft articles,
       pyStartsWith n.url "http" = true) := by
  refine ⟨?_, ?_, ?_, ?_, fun s => extractItems_url_absolute (baseOf_absolute s)⟩ <;>
    rw [pairsOf_extractItems] <;> rfl

/-- C5 witness: on a concrete block list the destructoid pairs match the
h2/h3 selection, the pcgamer pairs match the h3/h4 selection, and the
produced URL is absolute. -/
theorem C5_witness :
    pairsOf (extractItems (baseOf .destructoid) "destructoid" (headingOf .destructoid)
        (fun _ => "body") [blockA])
      = claimPairsH2H3 (baseOf .destructoid) [blockA] ∧
    pairsOf (extractItems (baseOf .pcgamer) "pcgamer" (headingOf .pcgamer)
        (fun _ => "body") [blockA])
      = claimPairsH3H4 (baseOf .pcgamer) [blockA] ∧
    itemA ∈ extractItems (baseOf .destructoid) "destructoid" (headingOf .destructoid)
        (fun _ => "body") [blockA] ∧
    pyStartsWith itemA.url "http" = true :=
  ⟨(C5_amended_extraction_pairs (fun _ => "body") [blockA]).1,
   (C5_amended_extraction_pairs (fun _ => "body") [blockA]).2.2.2.1,
   by decide,
   (C5_amended_extraction_pairs (fun _ => "body") [blockA]).2.2.2.2
     Source.destructoid itemA (by decide)⟩

/-- C6: every fetcher returns at most 7 items, and extraction only ever
looks at the first 7 article blocks of the listing page. -/
theorem C6_at_most_seven :
    (∀ (env : FetchEnv) (s : Source), (runFetcher env s).length ≤ 7) ∧
    (∀ (base src : String) (hsel : ArticleBlock → Option String)
       (ft : String → String) (articles : List ArticleBlock),
       extractItems base src hsel ft articles =
         extractItems base src hsel ft (articles.take 7)) := by
  constructor
  · intro env s
    unfold runFetcher
    cases env.page s with
    | error e => simp
    | ok articles =>
      unfold extractItems
      calc (List.filterMap _ (articles.take 7)).length
          ≤ (articles.take 7).length := List.length_filterMap_le _ _
        _ ≤ 7 := by simp [List.length_take]
  · intro base src hsel ft articles
    unfold extractItems
    rw [List.take_take, min_self]

/-- C7: /start inserts the chat id; /stop removes a subscribed chat id, and
on an unsubscribed chat leaves the set unchanged and answers that the chat
is not subscribed. -/
theorem C7_start_stop_toggle (s : Finset Int) (c : Int) :
    (c ∈ (start s c).1 ∧ ∀ d ∈ s, d ∈ (start s c).1) ∧
    (c ∈ s → (stop s c).1 = s.erase c ∧ c ∉ (stop s c).1 ∧
       (stop s c).2 = "❌ Бот больше не будет публиковать новости в этом чате.") ∧
    (c ∉ s → (stop s c).1 = s ∧ (stop s c).2 = "Вы не подписаны на новости.") := by
  refine ⟨⟨Finset.mem_insert_self c s, fun d hd => Finset.mem_insert_of_mem hd⟩, ?_, ?_⟩
  · intro h
    simp [stop, h, Finset.not_mem_erase]
  · intro h
    simp [stop, h]

/-- C7 witness: subscribing 5, unsubscribing 5, and /stop from the
unsubscribed chat 6. -/
theorem C7_witness :
    (5 : Int) ∈ (start {5} 5).1 ∧
    ((5 : Int) ∈ ({5} : Finset Int) ∧ (stop {5} 5).1 = ({5} : Finset Int).erase 5 ∧
      (5 : Int) ∉ (stop {5} 5).1) ∧
    ((6 : Int) ∉ ({5} : Finset Int) ∧ (stop {5} 6).1 = {5} ∧
      (stop {5} 6).2 = "Вы не подписаны на новости.") :=
  ⟨(C7_start_stop_toggle {5} 5).1.1,
   ⟨by decide, ((C7_start_stop_toggle {5} 5).2.1 (by decide)).1,
    ((C7_start_stop_toggle {5} 5).2.1 (by decide)).2.1⟩,
   ⟨by decide, ((C7_start_stop_toggle {5} 6).2.2 (by decide)).1,
    ((C7_start_stop_toggle {5} 6).2.2 (by decide)).2⟩⟩

/-- A nonempty subscriber set yields a nonempty iteration order. -/
theorem chatList_ne_nil {st : BotState} (h : st.chat_ids ≠ ∅) : chatList st ≠ [] := by
  intro hnil
  apply h
  apply Finset.eq_empty_iff_forall_not_mem.mpr
  intro a ha
  have hmem : a ∈ chatList st := by
    simp [chatList, Finset.mem_sort, ha]
  rw [hnil] at hmem
  exact List.not_mem_nil a hmem

/-- A chat's send list is never empty: the photo (or image-error) attempt
always opens it. -/
theorem chatSends_ne_nil (env : CycleEnv) (iu : Option String)
    (msgs : List String) (c : Int) : chatSends env iu msgs c ≠ [] := by
  cases iu <;> exact List.cons_ne_nil _ _

/-- C8: whatever the send outcomes, every subscribed chat gets its send
attempts (a failure for one chat never stops the rest), and the cycle ends
by absorbing all the new ids into the sent-links set. -/
theorem C8_publish_failures_isolated (st : BotState) (env : CycleEnv)
    (hnews : newNews st.last_news_ids env ≠ [])
    (hchat : st.chat_ids ≠ ∅) :
    (∀ c ∈ st.chat_ids, ∃ a ∈ (runCycle st env).2.sends, a.chat = c) ∧
    (runCycle st env).1.last_news_ids =
      st.last_news_ids ∪ ((newNews st.last_news_ids env).map (fun n => n.id)).toFinset := by
  have hcond : ¬(newNews st.last_news_ids env = [] ∨ st.chat_ids = ∅) := by
    simp [hnews, hchat]
  constructor
  · intro c hc
    unfold runCycle
    rw [if_neg hcond]
    show ∃ a ∈ cycleSends st env, a.chat = c
    unfold cycleSends
    obtain ⟨a, ha, hac⟩ :=
      chatSends_head_chat env (imgUrlOf env) (split_digest_by_news (digestOf env) 4) c
    refine ⟨a, ?_, hac⟩
    rw [List.mem_flatMap]
    exact ⟨c, by simp [chatList, Finset.mem_sort, hc], ha⟩
  · unfold runCycle
    rw [if_neg hcond]

/-- C8 witness: one item, one subscriber, every send failing — the chat is
still attempted and the sent set still absorbs the new id. -/
theorem C8_witness :
    newNews st0.last_news_ids envOneItem ≠ [] ∧
    st0.chat_ids ≠ ∅ ∧
    ((∀ c ∈ st0.chat_ids, ∃ a ∈ (runCycle st0 envOneItem).2.sends, a.chat = c) ∧
     (runCycle st0 envOneItem).1.last_news_ids =
       st0.last_news_ids ∪
         ((newNews st0.last_news_ids envOneItem).map (fun n => n.id)).toFinset) :=
  ⟨by decide, by decide,
   C8_publish_failures_isolated st0 envOneItem (by decide) (by decide)⟩

/-- A failed completion call always yields a string opening with "Ошибка". -/
theorem ask_gpt_failed_error_string (o : ApiOutcome) (hfail : completionFailed o) :
    pyStartsWith (ask_gpt o) "Ошибка" = true := by
  rcases hfail with ⟨e, rfl⟩ | ⟨status, body, parsed, rfl, hst⟩
  · exact pyStartsWith_append "Ошибка общения с OpenAI: " e "Ошибка" (by decide)
  · show pyStartsWith (ask_gpt (ApiOutcome.response status body parsed)) "Ошибка" = true
    simp only [ask_gpt]
    rw [if_pos hst]
    exact pyStartsWith_append _ (pyTake body 500) _
      (pyStartsWith_append _ ("]: ") _
        (pyStartsWith_append "Ошибка OpenAI API [" (toString status) _ (by decide)))

/-- A failed completion call never yields the empty string. -/
theorem ask_gpt_failed_ne_empty (o : ApiOutcome) (hfail : completionFailed o) :
    ask_gpt o ≠ "" :=
  ne_empty_of_pyStartsWith (by decide) (ask_gpt_failed_error_string o hfail)

/-- C9: ask_gpt is total — a raised request or a non-200 response becomes an
error-message string, and a cycle whose completion call fails still runs its
publish step with that error string as the digest text. -/
theorem C9_ask_gpt_total_error_published (o : ApiOutcome) (hfail : completionFailed o) :
    (pyStartsWith (ask_gpt o) "Ошибка" = true ∧ ask_gpt o ≠ "") ∧
    (∀ (st : BotState) (env : CycleEnv), env.digestOutcome = o →
       newNews st.last_news_ids env ≠ [] → st.chat_ids ≠ ∅ →
       (runCycle st env).2.digest = ask_gpt o ∧ (runCycle st env).2.sends ≠ []) := by
  refine ⟨⟨ask_gpt_failed_error_string o hfail, ask_gpt_failed_ne_empty o hfail⟩, ?_⟩
  intro st env ho hnews hchat
  have hcond : ¬(newNews st.last_news_ids env = [] ∨ st.chat_ids = ∅) := by
    simp [hnews, hchat]
  unfold runCycle
  rw [if_neg hcond]
  constructor
  · show digestOf env = ask_gpt o
    unfold digestOf
    rw [ho, if_neg (ask_gpt_failed_ne_empty o hfail)]
  · show cycleSends st env ≠ []
    unfold cycleSends
    cases hcl : chatList st with
    | nil => exact absurd hcl (chatList_ne_nil hchat)
    | cons c rest =>
      rw [List.flatMap_cons]
      intro hnil
      exact chatSends_ne_nil env (imgUrlOf env) (split_digest_by_news (digestOf env) 4) c
        (List.append_eq_nil.mp hnil).1

/-- C9 witness: the digest request raising "boom" still publishes, with the
error string as the digest text. -/
theorem C9_witness :
    completionFailed (ApiOutcome.raised "boom") ∧
    pyStartsWith (ask_gpt (ApiOutcome.raised "boom")) "Ошибка" = true ∧
    ask_gpt (ApiOutcome.raised "boom") ≠ "" ∧
    (runCycle st0 envOneItem).2.digest = ask_gpt (ApiOutcome.raised "boom") ∧
    (runCycle st0 envOneItem).2.sends ≠ [] :=
  ⟨Or.inl ⟨"boom", rfl⟩,
   (C9_ask_gpt_total_error_published (ApiOutcome.raised "boom") (Or.inl ⟨"boom", rfl⟩)).1.1,
   (C9_ask_gpt_total_error_published (ApiOutcome.raised "boom") (Or.inl ⟨"boom", rfl⟩)).1.2,
   ((C9_ask_gpt_total_error_published (ApiOutcome.raised "boom") (Or.inl ⟨"boom", rfl⟩)).2
     st0 envOneItem rfl (by decide) (by decide)).1,
   ((C9_ask_gpt_total_error_published (ApiOutcome.raised "boom") (Or.inl ⟨"boom", rfl⟩)).2
     st0 envOneItem rfl (by decide) (by decide)).2⟩

/-- C10: each digest chunk groups at most 4 blocks, and every text part that
reaches a send call is at most MAX_TEXT_LEN code points long. -/
theorem C10_parts_within_limit (digest : String) :
    (∀ g ∈ chunksOf 4 (blocksOf digest), g.length ≤ 4) ∧
    (∀ msg ∈ split_digest_by_news digest 4, ∀ p ∈ sliceParts msg,
       pyLen p ≤ MAX_TEXT_LEN) := by
  constructor
  · intro g hg
    exact length_le_of_mem_chunksOf (by norm_num) hg
  · intro msg hmsg p hp
    unfold sliceParts at hp
    by_cases h : pyLen msg > MAX_TEXT_LEN
    · rw [if_pos h] at hp
      rw [List.mem_map] at hp
      obtain ⟨c, hc, rfl⟩ := hp
      exact length_le_of_mem_chunksOf (by norm_num [MAX_TEXT_LEN]) hc
    · rw [if_neg h] at hp
      rw [List.mem_singleton] at hp
      subst hp
      omega

/-- C10 witness: a two-block digest forms one chunk of two blocks, sent as a
single short part. -/
theorem C10_witness :
    (["a", "b"] ∈ chunksOf 4 (blocksOf "a\n\nb") ∧ (["a", "b"] : List String).length ≤ 4) ∧
    ("a\n\nb" ∈ split_digest_by_news "a\n\nb" 4 ∧ "a\n\nb" ∈ sliceParts "a\n\nb" ∧
      pyLen "a\n\nb" ≤ MAX_TEXT_LEN) :=
  ⟨⟨by decide, (C10_parts_within_limit "a\n\nb").1 ["a", "b"] (by decide)⟩,
   ⟨by decide, by decide,
    (C10_parts_within_limit "a\n\nb").2 "a\n\nb" (by decide) "a\n\nb" (by decide)⟩⟩

end MyTelegramBot
